import Mathlib

/-!
Verification development for the OHLCV ingestion core of this repository
(`app/validation.py` and `app/services/data_manager.py`): the quality
validator, the TTL cache and the batch persister.

Modelling conventions (a shallow embedding of the Python source):
* Timestamps are seconds since an epoch that falls on a Monday midnight, as
  `Nat`; `pd.NaT` is `Option.none`.  `timestamp.weekday()` is the day number
  mod 7 (Monday = 0 .. Sunday = 6, Python's convention), `timestamp.date()`
  is the day number, `timestamp.time()` the second of the day.
* Prices and scores are `ℚ` (the float rounding of CPython is not modelled;
  all claim-relevant computations are exact small rationals).
* A `pandas.DataFrame` is a column list plus a row list.  Frames are
  modelled with the positional integer index `0 .. n-1` (a `RangeIndex`),
  which is what the data manager's pipeline produces; selecting a column
  that is absent raises `KeyError`.
* The `holidays.India(years=...)` table is an external provider
  (spec §6 HolidayProvider); it is passed in as the list `hol` of holiday
  day numbers.  The source restricts the table to the years occurring in the
  batch, and only ever queries dates taken from the batch, whose years are in
  that set by construction, so membership is unchanged by the restriction.
* Python exceptions are `Except PyError`; a `try/except` is a `match` on it.
* Returning tuples of different lengths from the same function (the empty
  data path of `validate_data_quality` returns three values, every other
  path four) is modelled by the two-constructor type `ValidatorResult`;
  Python's unpacking `a, b, c = t` of a tuple of the wrong arity raises
  `ValueError`.
-/

/-- Seconds in a day. -/
def secondsPerDay : Nat := 86400

/-- `timestamp.date()`: the day number of an instant. -/
def dayNum (t : Nat) : Nat := t / secondsPerDay

/-- `timestamp.weekday()`: Monday = 0 .. Sunday = 6 (epoch day 0 is a Monday). -/
def weekday (t : Nat) : Nat := dayNum t % 7

/-- `timestamp.time()` as the second of the day. -/
def timeOfDay (t : Nat) : Nat := t % secondsPerDay

/-- One OHLCV row.  `ts = none` models a null / `NaT` timestamp. -/
structure Bar where
  ts : Option Nat
  open_ : ℚ
  high : ℚ
  low : ℚ
  close : ℚ
  volume : Int
deriving Repr, DecidableEq

/-- A `pandas.DataFrame`: the set of columns present, and the rows.
Reading the value of a column that is in `cols` reads the `Bar` field. -/
structure Frame where
  cols : List String
  rows : List Bar
deriving Repr, DecidableEq

/-- The `trading_hours` sub-dict of the validation rules (seconds of day). -/
structure TradingHours where
  start : Nat
  end_ : Nat
deriving Repr, DecidableEq

/-- `DataManager._validation_rules`. -/
structure ValidationRules where
  price_min : ℚ
  price_max : ℚ
  volume_min : Int
  ohlc_logic : Bool
  time_sequence : Bool
  duplicate_check : Bool
  quality_threshold : ℚ
  trading_hours : Option TradingHours
  check_holidays : Bool
deriving Repr, DecidableEq

/-- `self.config` as seen by the validator and the persister.
`data_validation_enabled` is the resolved value of
`config.get('data_validation_enabled', True)` (the manager always sets it);
`batch_size = none` makes `config.get('batch_size', 10000)` fall back. -/
structure Config where
  data_validation_enabled : Bool
  batch_size : Option Nat
deriving Repr, DecidableEq

/-- The rules built in `DataManager.__init__` (lines 42-54):
prices in [0.1, 200000], volume ≥ 0, all checks on, threshold 0.95,
trading hours 09:15:00-15:30:00 (33300 s - 55800 s). -/
def mgrValidationRules : ValidationRules :=
  ⟨1/10, 200000, 0, true, true, true, 95/100, some ⟨33300, 55800⟩, true⟩

/-- The manager's default config: validation enabled, batch size 5000. -/
def mgrConfig : Config := ⟨true, some 5000⟩

/-- `trading_hours.get('start', '09:15:00')` in seconds. -/
def tradingStartOf (rules : ValidationRules) : Nat :=
  match rules.trading_hours with
  | some th => th.start
  | none => 33300

/-- `trading_hours.get('end', '15:29:00')` in seconds (the in-file fallback). -/
def tradingEndOf (rules : ValidationRules) : Nat :=
  match rules.trading_hours with
  | some th => th.end_
  | none => 55740

/-- One record of `timestamp_details['non_trading_timestamps']`.
(The cosmetic `day` / `holiday_name` strings are not modelled.) -/
structure NonTradingEntry where
  ts : Nat
  reason : String
deriving Repr, DecidableEq

/-- One record of `timestamp_details['non_trading_ohlcv_data']`. -/
structure NonTradingOhlcv where
  ts : Nat
  reason : String
  open_ : ℚ
  high : ℚ
  low : ℚ
  close : ℚ
  volume : Int
deriving Repr, DecidableEq

/-- One record of `timestamp_details['gap_details']`. -/
structure GapDetail where
  gap_start : Nat
  gap_end : Nat
  gap_duration_minutes : Nat
  missing_intervals : Nat
  expected_interval_minutes : Nat
deriving Repr, DecidableEq

/-- One record of `timestamp_details['missing_consecutive_minutes']`. -/
structure MissingMinute where
  missing_ts : Nat
  prev_ts : Nat
  next_ts : Nat
  gap_duration_minutes : Nat
deriving Repr, DecidableEq

/-- The `timestamp_details` dict built during validation.
(`missing_interval_timestamps` is initialised by the source and never
appended to.)  The bare `{}` returned by the disabled/except paths is
modelled as the all-empty structure. -/
structure TimestampDetails where
  non_trading_timestamps : List NonTradingEntry
  non_trading_ohlcv_data : List NonTradingOhlcv
  missing_interval_timestamps : List Nat
  gap_details : List GapDetail
  missing_consecutive_minutes : List MissingMinute
deriving Repr, DecidableEq

/-- The empty `timestamp_details`. -/
def emptyDetails : TimestampDetails := ⟨[], [], [], [], []⟩

/-- Python exceptions that the modelled code can raise. -/
inductive PyError where
  | valueError
  | keyError (col : String)
  | indexError
deriving Repr, DecidableEq

/-- `str(e)` for the exceptions that can reach the validator's catch-all.
(Python renders a KeyError with quotes around the key; the quotes are not
modelled.) -/
def pyErrMsg : PyError → String
  | .valueError => "too many values to unpack"
  | .keyError c => c
  | .indexError => "single positional indexer is out-of-bounds"

/-- The value returned by `DataValidator.validate_data_quality`: every path
returns the 4-tuple `(is_valid, issues, score, timestamp_details)` except
the empty-data path (line 103), which returns only 3 values. -/
inductive ValidatorResult where
  | full (is_valid : Bool) (issues : List String) (score : ℚ)
      (details : TimestampDetails)
  | truncated (is_valid : Bool) (issues : List String) (score : ℚ)
deriving Repr, DecidableEq

/-- The score component of a validator result. -/
def resultScore : ValidatorResult → ℚ
  | .full _ _ s _ => s
  | .truncated _ _ s => s

/-- The issues component of a validator result. -/
def resultIssues : ValidatorResult → List String
  | .full _ i _ _ => i
  | .truncated _ i _ => i

/-- The gap details of a validator result (empty on the truncated shape). -/
def resultGapDetails : ValidatorResult → List GapDetail
  | .full _ _ _ d => d.gap_details
  | .truncated _ _ _ => []

/-- A quality log/audit record: `sink` identifies the emitter
(the validator's `_log_data_quality_issues` or the manager's DB
`_log_quality`). -/
structure QualityLogRecord where
  sink : String
  symbol : String
  issues : List String
  score : ℚ
deriving Repr, DecidableEq

/-- Truthiness of the optional `symbol` argument (`None` and `""` are
falsy in `if issues and symbol and not skip_logging`). -/
def symbolTruthy : Option String → Bool
  | none => false
  | some s => decide (s ≠ "")

/-- The six required columns (validation.py line 93). -/
def requiredColumns : List String :=
  ["timestamp", "open", "high", "low", "close", "volume"]

/-- Reading column `c` raises `KeyError` when it is absent. -/
def needCol (data : Frame) (c : String) : Except PyError Unit :=
  if c ∈ data.cols then .ok () else .error (.keyError c)

/-- The value of price column `c` of a row. -/
def colVal (c : String) (r : Bar) : ℚ :=
  if c = "open" then r.open_
  else if c = "high" then r.high
  else if c = "low" then r.low
  else r.close

/-- `DataValidator._is_trading_time` (validation.py lines 20-35): not `NaT`,
weekday < 5, date not a holiday, and time-of-day inside the inclusive
trading window. -/
def is_trading_time (ts : Option Nat) (trading_start trading_end : Nat)
    (ind_holidays : List Nat) : Bool :=
  match ts with
  | none => false
  | some t =>
    if 5 ≤ weekday t then false
    else if dayNum t ∈ ind_holidays then false
    else decide (trading_start ≤ timeOfDay t ∧ timeOfDay t ≤ trading_end)

/-- `DataValidator._get_trading_data_only` on a labelled row list (the
`'timestamp' in data.columns` guard holds at every call site). -/
def get_trading_data_only (data : List (Nat × Bar))
    (trading_start trading_end : Nat) (ind_holidays : List Nat) :
    List (Nat × Bar) :=
  data.filter fun r => is_trading_time r.2.ts trading_start trading_end ind_holidays

/-- Sort key of `sort_values('timestamp')`: `NaT` sorts last. -/
def tsLe (a b : Option Nat) : Bool :=
  match a, b with
  | none, none => true
  | none, some _ => false
  | some _, none => true
  | some x, some y => decide (x ≤ y)

/-- Stable insertion of a labelled row into a timestamp-sorted list. -/
def insertSorted (r : Nat × Bar) : List (Nat × Bar) → List (Nat × Bar)
  | [] => [r]
  | x :: xs =>
    if tsLe x.2.ts r.2.ts then x :: insertSorted r xs else r :: x :: xs

/-- `data.sort_values('timestamp')` (stable; `NaT` placed last).  For the
claim-relevant inputs all timestamps are distinct, so the unstable kind
pandas uses by default produces the same order. -/
def sortByTs : List (Nat × Bar) → List (Nat × Bar)
  | [] => []
  | x :: xs => insertSorted x (sortByTs xs)

/-- `series.diff().dropna()` over a timestamp column: differences of
consecutive positions, entries involving `NaT` dropped. -/
def seriesDiffsDropna (l : List (Option Nat)) : List Int :=
  (l.zip l.tail).filterMap fun p =>
    match p.1, p.2 with
    | some a, some b => some ((b : Int) - (a : Int))
    | _, _ => none

/-- `series.diff().dropna()` keeping the pandas index label of each entry
(the label of the later row of the pair). -/
def labeledTsDiffs (l : List (Nat × Bar)) : List (Nat × Int) :=
  (l.zip l.tail).filterMap fun p =>
    match p.1.2.ts, p.2.2.ts with
    | some a, some b => some (p.2.1, (b : Int) - (a : Int))
    | _, _ => none

/-- `series.mode().iloc[0]`: the smallest among the values of maximal
multiplicity (pandas sorts the modes ascending). -/
def listModeMin (l : List Int) : Option Int :=
  l.foldl
    (fun acc x =>
      match acc with
      | none => some x
      | some m =>
        if l.count m < l.count x then some x
        else if l.count x = l.count m ∧ x < m then some x
        else acc)
    none

/-- `DataValidator._calculate_expected_trading_intervals`
(validation.py lines 49-72): the mode of the successive timestamp
differences of the trading-only rows, plus the trading row count;
`(none, 0)` when fewer than 2 trading rows exist. -/
def calculate_expected_trading_intervals (data_sorted : List (Nat × Bar))
    (trading_start trading_end : Nat) (ind_holidays : List Nat) :
    Option Int × Nat :=
  if data_sorted.length < 2 then (none, 0)
  else
    let trading_data :=
      get_trading_data_only data_sorted trading_start trading_end ind_holidays
    if trading_data.length < 2 then (none, 0)
    else
      let time_diffs := seriesDiffsDropna (trading_data.map fun r => r.2.ts)
      if time_diffs.length = 0 then (none, 0)
      else
        match listModeMin time_diffs with
        | some m => (some m, trading_data.length)
        | none => (none, 0)

/-- Structure check (validation.py lines 92-99): one issue and subscore 0
when a required column is missing, else subscore 1. -/
def structuralCheck (data : Frame) : List String × List ℚ :=
  let missing_columns := requiredColumns.filter fun c => decide (c ∉ data.cols)
  if missing_columns.isEmpty then ([], [1])
  else (["Missing columns: " ++ String.intercalate ", " missing_columns], [0])

/-- OHLC logic check (lines 105-129).  Accesses the four price columns
(`KeyError` when absent, in the source's evaluation order). -/
def ohlcCheck (rules : ValidationRules) (data : Frame) (n : Nat) :
    Except PyError (List String × List ℚ) := do
  if rules.ohlc_logic then
    let _ ← needCol data "high"
    let _ ← needCol data "open"
    let _ ← needCol data "close"
    let _ ← needCol data "low"
    let high_violations := data.rows.countP fun r =>
      decide (r.high < r.open_) || decide (r.high < r.close) || decide (r.high < r.low)
    let low_violations := data.rows.countP fun r =>
      decide (r.open_ < r.low) || decide (r.close < r.low) || decide (r.high < r.low)
    let ohlc_violations := high_violations + low_violations
    if 0 < ohlc_violations then
      return (["OHLC logic violations: " ++ toString ohlc_violations],
              [max 0 (1 - (ohlc_violations : ℚ) / (n : ℚ))])
    else
      return ([], [1])
  else
    return ([], [])

/-- Price range check (lines 131-144): the product over the four price
columns of the clamped in-range fractions; always appends one subscore. -/
def priceRangeCheck (rules : ValidationRules) (data : Frame) (n : Nat) :
    Except PyError (List String × List ℚ) := do
  let mut issues : List String := []
  let mut price_quality : ℚ := 1
  for c in ["open", "high", "low", "close"] do
    let _ ← needCol data c
    let out_of_range := data.rows.countP fun r =>
      decide (colVal c r < rules.price_min) || decide (rules.price_max < colVal c r)
    if 0 < out_of_range then
      issues := issues ++ [c ++ " out of range: " ++ toString out_of_range ++ " bars"]
      price_quality := price_quality * max 0 (1 - (out_of_range : ℚ) / (n : ℚ))
  return (issues, [price_quality])

/-- Volume check (lines 146-152). -/
def volumeCheck (rules : ValidationRules) (data : Frame) (n : Nat) :
    Except PyError (List String × List ℚ) := do
  let _ ← needCol data "volume"
  let negative_volume := data.rows.countP fun r => decide (r.volume < rules.volume_min)
  if 0 < negative_volume then
    return (["Invalid volume: " ++ toString negative_volume ++ " bars"],
            [max 0 (1 - (negative_volume : ℚ) / (n : ℚ))])
  else
    return ([], [1])

/-- Trading hours check (lines 154-175), only when the timestamp column
exists: counts non-null timestamps whose time-of-day is outside the
window. -/
def tradingHoursCheck (rules : ValidationRules) (data : Frame) (n : Nat) :
    List String × List ℚ :=
  if "timestamp" ∈ data.cols then
    let trading_start := tradingStartOf rules
    let trading_end := tradingEndOf rules
    let invalid_hours := data.rows.countP fun r =>
      match r.ts with
      | none => false
      | some t =>
        decide (timeOfDay t < trading_start) || decide (trading_end < timeOfDay t)
    if 0 < invalid_hours then
      (["Timestamps outside trading hours: " ++ toString invalid_hours],
       [max 0 (1 - (invalid_hours : ℚ) / (n : ℚ))])
    else
      ([], [1])
  else ([], [])

/-- Weekend/holiday check (lines 177-238), nested inside the timestamp
branch: only when `check_holidays` is set and at least one year (i.e. one
non-null timestamp) is present; weekends are tested before holidays. -/
def holidayCheck (rules : ValidationRules) (hol : List Nat) (data : Frame)
    (n : Nat) :
    List String × List ℚ × List NonTradingEntry × List NonTradingOhlcv :=
  if "timestamp" ∈ data.cols then
    if rules.check_holidays then
      if data.rows.any (fun r => r.ts.isSome) then
        let ind_holidays := hol
        let weekendOrHoliday : Bar → Option (Nat × String) := fun r =>
          match r.ts with
          | none => none
          | some t =>
            if 5 ≤ weekday t then some (t, "weekend")
            else if dayNum t ∈ ind_holidays then some (t, "holiday")
            else none
        let nt := data.rows.filterMap fun r =>
          (weekendOrHoliday r).map fun p => NonTradingEntry.mk p.1 p.2
        let nto := data.rows.filterMap fun r =>
          (weekendOrHoliday r).map fun p =>
            NonTradingOhlcv.mk p.1 p.2 r.open_ r.high r.low r.close r.volume
        let non_trading_days := nt.length
        if 0 < non_trading_days then
          (["Data on non-trading days (weekends/holidays): " ++ toString non_trading_days],
           [max 0 (1 - (non_trading_days : ℚ) / (n : ℚ))], nt, nto)
        else
          ([], [1], nt, nto)
      else ([], [], [], [])
    else ([], [], [], [])
  else ([], [], [], [])

/-- The tolerance of the gap check (line 294): 1.1 when the expected
interval is at most one minute, else 1.5. -/
def gapTolerance (iv : Int) : ℚ := if iv ≤ 60 then 11/10 else 3/2

/-- The per-gap recording loop (lines 300-328).  `trading_data.iloc[...]`
interprets the pandas label of the flagged difference as a position;
`iloc` past the end raises `IndexError`. -/
def gapLoop (trading_data : List (Nat × Bar)) (iv : Int) :
    List (Nat × Int) → Except PyError (Int × Nat × List GapDetail)
  | [] => .ok (0, 0, [])
  | p :: rest => do
    let (missing_intervals, actual_gap_count, details) ← gapLoop trading_data iv rest
    if 0 < iv then
      let gap := p.2
      let gap_missing : Int := gap / iv - 1
      if 0 < gap_missing ∧ gap_missing ≤ 1000 then
        match trading_data.get? p.1, trading_data.get? (p.1 + 1) with
        | some r1, some r2 =>
          .ok (missing_intervals + gap_missing, actual_gap_count + 1,
               ⟨r1.2.ts.getD 0, r2.2.ts.getD 0, (gap / 60).toNat,
                gap_missing.toNat, (iv / 60).toNat⟩ :: details)
        | _, _ => .error .indexError
      else
        .ok (missing_intervals, actual_gap_count, details)
    else
      .ok (missing_intervals, actual_gap_count, details)

/-- The gap-detection branch (lines 283-348) given the inferred interval:
Python's `if expected_interval and trading_data_count > 1` (a zero
`Timedelta` is falsy) guards the analysis; every other branch appends the
neutral subscore 1.0. -/
def gapSequenceCheck (data_sorted : List (Nat × Bar))
    (trading_start trading_end : Nat) (ind_holidays : List Nat) :
    Except PyError (List String × List ℚ × List GapDetail) :=
  match calculate_expected_trading_intervals data_sorted trading_start trading_end ind_holidays with
  | (none, _) => .ok ([], [1], [])
  | (some iv, trading_data_count) =>
    if decide (iv ≠ 0) && decide (1 < trading_data_count) then do
      let trading_data :=
        sortByTs (get_trading_data_only data_sorted trading_start trading_end ind_holidays)
      let time_diffs := labeledTsDiffs trading_data
      if 0 < time_diffs.length then
        let tolerance := gapTolerance iv
        let large_gaps := time_diffs.filter fun p => decide ((iv : ℚ) * tolerance < (p.2 : ℚ))
        let gap_count := large_gaps.length
        if 0 < gap_count then
          let (missing_intervals, actual_gap_count, details) ← gapLoop trading_data iv large_gaps
          let max_reasonable_missing : Int := min ((trading_data_count : Int) / 2) 10000
          let missing_capped := min missing_intervals max_reasonable_missing
          if 0 < missing_capped then
            return (["Missing time intervals (trading hours only): "
                      ++ toString actual_gap_count ++ " gaps detected ("
                      ++ toString missing_capped ++ " missing data points)"],
                    [max 0 (1 - (actual_gap_count : ℚ) / (trading_data_count : ℚ))],
                    details)
          else
            return (["Missing time intervals (trading hours only): "
                      ++ toString actual_gap_count ++ " gaps detected"],
                    [max 0 (1 - (actual_gap_count : ℚ) / (trading_data_count : ℚ))],
                    details)
        else
          return ([], [1], [])
      else
        return ([], [1], [])
    else .ok ([], [1], [])

/-- The body of the consecutive-minute scan (lines 372-400): total count of
missing minutes and the individual records, over consecutive trading rows
on the same day, comparing minute-truncated timestamps. -/
def consecutiveMinuteScan (trading_data : List (Nat × Bar)) :
    Nat × List MissingMinute :=
  (trading_data.zip trading_data.tail).foldl
    (fun acc p =>
      let prev_time := p.1.2.ts.getD 0
      let curr_time := p.2.2.ts.getD 0
      if dayNum prev_time = dayNum curr_time then
        let prev_minute := prev_time / 60 * 60
        let curr_minute := curr_time / 60 * 60
        let expected_next_minute := prev_minute + 60
        if expected_next_minute < curr_minute then
          let missing_minutes := (curr_minute - expected_next_minute) / 60
          (acc.1 + missing_minutes,
           acc.2 ++ (List.range missing_minutes).map fun j =>
             MissingMinute.mk (expected_next_minute + 60 * j) prev_time curr_time missing_minutes)
        else acc
      else acc)
    (0, [])

/-- The minute-level consecutiveness check (lines 350-409): runs only when
the smallest of the first 10 sampled differences is at most 2 minutes —
otherwise it appends no subscore at all. -/
def consecutiveMinuteCheck (data_sorted : List (Nat × Bar))
    (trading_start trading_end : Nat) (ind_holidays : List Nat) :
    List String × List ℚ × List MissingMinute :=
  if 1 < data_sorted.length then
    let sample_diffs := (seriesDiffsDropna (data_sorted.map fun r => r.2.ts)).take 10
    match sample_diffs with
    | [] => ([], [], [])
    | d :: ds =>
      if (ds.foldl min d) ≤ 120 then
        let trading_data :=
          sortByTs (get_trading_data_only data_sorted trading_start trading_end ind_holidays)
        if 1 < trading_data.length then
          let (consecutive_minutes, recs) := consecutiveMinuteScan trading_data
          if 0 < consecutive_minutes then
            (["Missing consecutive minutes within trading hours: "
               ++ toString consecutive_minutes ++ " missing minute intervals"],
             [max 0 (1 - (consecutive_minutes : ℚ) / (trading_data.length : ℚ))],
             recs)
          else ([], [1], recs)
        else ([], [1], [])
      else ([], [], [])
  else ([], [], [])

/-- The time-sequence block (lines 240-409): missing timestamps,
non-increasing timestamps, gap detection and the consecutive-minute check,
all only when `time_sequence` is set, the batch has more than one row and
the timestamp column exists. -/
def timeSequenceBlock (rules : ValidationRules) (hol : List Nat) (data : Frame)
    (n : Nat) :
    Except PyError (List String × List ℚ × List GapDetail × List MissingMinute) := do
  if rules.time_sequence && decide (1 < n) then
    if "timestamp" ∈ data.cols then
      let null_timestamps := data.rows.countP fun r => r.ts.isNone
      let nat_timestamps := data.rows.countP fun r => r.ts.isNone
      let total_missing := max null_timestamps nat_timestamps
      let (missIssues, missScores) :=
        if 0 < total_missing then
          (["Missing timestamps: " ++ toString total_missing],
           ([max 0 (1 - (total_missing : ℚ) / (n : ℚ))] : List ℚ))
        else ([], [1])
      let data_sorted := sortByTs data.rows.enum
      let time_errors := (seriesDiffsDropna (data_sorted.map fun r => r.2.ts)).countP
        fun d => decide (d ≤ 0)
      let (seqIssues, seqScores) :=
        if 0 < time_errors then
          (["Time sequence errors: " ++ toString time_errors],
           ([max 0 (1 - (time_errors : ℚ) / (n : ℚ))] : List ℚ))
        else ([], [1])
      let trading_start := tradingStartOf rules
      let trading_end := tradingEndOf rules
      let ind_holidays := if data_sorted.any (fun r => r.2.ts.isSome) then hol else []
      let (gapIssues, gapScores, gapDetails) ←
        if 1 < data_sorted.length then
          gapSequenceCheck data_sorted trading_start trading_end ind_holidays
        else pure ([], [], [])
      let (cmIssues, cmScores, cmRecs) :=
        consecutiveMinuteCheck data_sorted trading_start trading_end ind_holidays
      return (missIssues ++ seqIssues ++ gapIssues ++ cmIssues,
              missScores ++ seqScores ++ gapScores ++ cmScores,
              gapDetails, cmRecs)
    else
      return ([], [], [], [])
  else
    return ([], [], [], [])

/-- Duplicate-timestamp check (lines 411-419): rows equal (as timestamps,
`NaT` equal to `NaT` as in `DataFrame.duplicated`) to an earlier row. -/
def dupCountAux : List (Option Nat) → List (Option Nat) → Nat
  | _, [] => 0
  | seen, x :: xs => (if x ∈ seen then 1 else 0) + dupCountAux (x :: seen) xs

/-- Duplicate-timestamp check (lines 411-419). -/
def duplicateCheck (rules : ValidationRules) (data : Frame) (n : Nat) :
    List String × List ℚ :=
  if rules.duplicate_check then
    if "timestamp" ∈ data.cols then
      let duplicates := dupCountAux [] (data.rows.map fun r => r.ts)
      if 0 < duplicates then
        (["Duplicate timestamps: " ++ toString duplicates],
         [max 0 (1 - (duplicates : ℚ) / (n : ℚ))])
      else ([], [1])
    else ([], [])
  else ([], [])

/-- `np.mean(quality_scores) if quality_scores else 0.0` (line 422). -/
def meanQ (l : List ℚ) : ℚ := if l.isEmpty then 0 else l.sum / (l.length : ℚ)

/-- The checks of `validate_data_quality` on a non-empty frame, in source
order, collecting the issue strings, the appended subscores and the
`timestamp_details` records. -/
def validateNonEmpty (rules : ValidationRules) (hol : List Nat) (data : Frame) :
    Except PyError (List String × List ℚ × TimestampDetails) := do
  let n := data.rows.length
  let (i1, s1) ← ohlcCheck rules data n
  let (i2, s2) ← priceRangeCheck rules data n
  let (i3, s3) ← volumeCheck rules data n
  let (i4, s4) := tradingHoursCheck rules data n
  let (i5, s5, nt, nto) := holidayCheck rules hol data n
  let (i6, s6, gaps, mms) ← timeSequenceBlock rules hol data n
  let (i7, s7) := duplicateCheck rules data n
  return (i1 ++ i2 ++ i3 ++ i4 ++ i5 ++ i6 ++ i7,
          s1 ++ s2 ++ s3 ++ s4 ++ s5 ++ s6 ++ s7,
          ⟨nt, nto, [], gaps, mms⟩)

/-- The `try` body of `validate_data_quality`: structure check, empty-data
early return (the 3-tuple, line 103), then the remaining checks and the
aggregation of line 422. -/
def validateBody (rules : ValidationRules) (hol : List Nat) (data : Frame) :
    Except PyError ValidatorResult :=
  let s0 := structuralCheck data
  if data.rows.isEmpty then
    .ok (.truncated false (s0.1 ++ ["Empty dataset"]) 0)
  else
    match validateNonEmpty rules hol data with
    | .ok (issues, scores, details) =>
      let issues := s0.1 ++ issues
      let quality_scores := s0.2 ++ scores
      let overall_quality := meanQ quality_scores
      .ok (.full (decide (rules.quality_threshold ≤ overall_quality))
            issues overall_quality details)
    | .error e => .error e

/-- The log records the validator itself emits (lines 424-429):
`_log_data_quality_issues` runs only on the 4-tuple path, when there are
issues, the symbol is truthy and `skip_logging` is not set. -/
def validatorLogs (r : ValidatorResult) (symbol : Option String)
    (skip_logging : Bool) : List QualityLogRecord :=
  match r with
  | .full _ issues score _ =>
    if decide (issues ≠ []) && symbolTruthy symbol && decide (skip_logging = false) then
      [⟨"validator", symbol.getD "", issues, score⟩]
    else []
  | .truncated _ _ _ => []

/-- `DataValidator.validate_data_quality` (lines 74-437): the disabled
short-circuit, the `try` body, and the catch-all that converts any
exception into `(False, ["Validation failed: ..."], 0.0, {})`.  The second
component is the list of emitted log/audit records. -/
def DataValidator_validate_data_quality (cfg : Config) (rules : ValidationRules)
    (hol : List Nat) (data : Frame) (symbol : Option String)
    (skip_logging : Bool) : ValidatorResult × List QualityLogRecord :=
  if cfg.data_validation_enabled = false then
    (.full true [] 1 emptyDetails, [])
  else
    match validateBody rules hol data with
    | .ok r => (r, validatorLogs r symbol skip_logging)
    | .error e =>
      (.full false ["Validation failed: " ++ pyErrMsg e] 0 emptyDetails, [])

/-- `DataManager.validate_data_quality` (data_manager.py lines 88-96):
unpacks the validator's return into four names — a `ValueError` when the
validator produced the 3-tuple — then logs to the DB under the same gate
and returns the 4-tuple. -/
def DataManager_validate_data_quality (cfg : Config) (rules : ValidationRules)
    (hol : List Nat) (data : Frame) (symbol : Option String)
    (skip_logging : Bool) :
    Except PyError (Bool × List String × ℚ × TimestampDetails) × List QualityLogRecord :=
  let (r, vlogs) := DataValidator_validate_data_quality cfg rules hol data symbol skip_logging
  match r with
  | .full v i s d =>
    let mlogs :=
      if decide (i ≠ []) && symbolTruthy symbol && decide (skip_logging = false) then
        [⟨"db", symbol.getD "", i, s⟩]
      else []
    (.ok (v, i, s, d), vlogs ++ mlogs)
  | .truncated _ _ _ => (.error .valueError, vlogs)

/-- One entry of the manager's cache.  The source keeps two dicts keyed
identically (`_cache` holding `(insert_time, frame)` and
`_cache_timestamps` holding the insert time); every update site touches
both with the same key, and the two `datetime.now()` calls of
`_store_in_cache` are modelled as one instant, so they are represented as
one association list in dict insertion order.  The clock is `Nat`
(a negative `datetime` difference and a zero one behave identically in
every comparison the source makes). -/
structure CacheEntry where
  key : String
  time : Nat
  data : List Bar
deriving Repr, DecidableEq

/-- The cache state: entries plus the `_cache_stats` counters. -/
structure Cache where
  entries : List CacheEntry
  hits : Nat
  misses : Nat
deriving Repr, DecidableEq

/-- `key in self._cache` plus the dict read. -/
def lookupEntry (l : List CacheEntry) (key : String) : Option CacheEntry :=
  l.find? fun e => e.key == key

/-- Dict assignment: replace in place, else append (insertion order). -/
def dictInsert (l : List CacheEntry) (key : String) (time : Nat)
    (d : List Bar) : List CacheEntry :=
  match l with
  | [] => [⟨key, time, d⟩]
  | e :: es =>
    if e.key == key then ⟨key, time, d⟩ :: es
    else e :: dictInsert es key time d

/-- `min(self._cache_timestamps.keys(), key=...)`: the first entry in dict
order attaining the minimal insertion time (Python's `min` keeps the first
minimum). -/
def oldestEntry : List CacheEntry → Option CacheEntry
  | [] => none
  | e :: es => some (es.foldl (fun best x => if x.time < best.time then x else best) e)

/-- `DataManager._get_from_cache` (lines 489-500): a fresh entry is a hit
(copy returned, hit counter bumped); a stale entry (age not `< 5` minutes)
is deleted; both the stale and the absent case fall through to a miss. -/
def DataManager_get_from_cache (c : Cache) (now : Nat) (key : String) :
    Option (List Bar) × Cache :=
  match lookupEntry c.entries key with
  | some e =>
    if now - e.time < 300 then
      (some e.data, ⟨c.entries, c.hits + 1, c.misses⟩)
    else
      (none, ⟨c.entries.filter fun x => !(x.key == key), c.hits, c.misses + 1⟩)
  | none => (none, ⟨c.entries, c.hits, c.misses + 1⟩)

/-- `DataManager._store_in_cache` (lines 502-509): insert a copy with the
current timestamp; if the map then holds more than 500 entries, pop the
oldest-by-insertion-time key. -/
def DataManager_store_in_cache (c : Cache) (now : Nat) (key : String)
    (d : List Bar) : Cache :=
  let entries := dictInsert c.entries key now d
  if 500 < entries.length then
    match oldestEntry entries with
    | some old => ⟨entries.filter fun e => !(e.key == old.key), c.hits, c.misses⟩
    | none => ⟨entries, c.hits, c.misses⟩
  else ⟨entries, c.hits, c.misses⟩

/-- Is `needle` a leading segment of `hay`? -/
def subAt : List Char → List Char → Bool
  | [], _ => true
  | _ :: _, [] => false
  | a :: as, b :: bs => (a == b) && subAt as bs

/-- Does `hay` contain `needle` as a contiguous run? -/
def hasSub (needle : List Char) : List Char → Bool
  | [] => subAt needle []
  | b :: bs => subAt needle (b :: bs) || hasSub needle bs

/-- Python's `symbol in k` substring test on strings. -/
def strHasSub (hay needle : String) : Bool := hasSub needle.toList hay.toList

/-- `DataManager._invalidate_cache` (lines 511-516): drop every entry whose
key contains the symbol as a substring. -/
def DataManager_invalidate_cache (c : Cache) (symbol : String) : Cache :=
  ⟨c.entries.filter (fun e => !(strHasSub e.key symbol)), c.hits, c.misses⟩

/-- The periodic sweep body (lines 518-533): remove entries strictly older
than the maximum age. -/
def cacheCleanupPass (c : Cache) (now : Nat) : Cache :=
  ⟨c.entries.filter (fun e => !(decide (300 < now - e.time))), c.hits, c.misses⟩

/-- The retry loop of one chunk (data_manager.py lines 152-178): up to
`remaining` further attempts starting at index `attempt`; a failed attempt
that is not the last sleeps `2 ** attempt` seconds.  `oracle attempt` tells
whether the upsert of that attempt succeeds (the storage backend of spec
§6).  Returns whether the chunk succeeded and the list of sleeps. -/
def runChunkRetries (oracle : Nat → Bool) : Nat → Nat → Bool × List Nat
  | 0, _ => (false, [])
  | rem + 1, attempt =>
    if oracle attempt then (true, [])
    else if 0 < rem then
      let r := runChunkRetries oracle rem (attempt + 1)
      (r.1, 2 ^ attempt :: r.2)
    else (false, [])

/-- One chunk with `max_retries = 3`. -/
def chunkAttempts (oracle : Nat → Bool) : Bool × List Nat :=
  runChunkRetries oracle 3 0

/-- `range(0, total_rows, batch_size)` length (batch_size > 0). -/
def numChunks (total batch_size : Nat) : Nat := (total + batch_size - 1) / batch_size

deriving instance DecidableEq for Except

/-- The observable outcome of one `store_ohlcv_data` call: the returned
value (or the exception), the chunk counters, the backoff sleeps performed,
whether the symbol's cache entries were invalidated, and the cache
afterwards. -/
structure StoreOutcome where
  result : Except PyError Bool
  succeeded_batches : Nat
  failed_batches : Nat
  delays : List Nat
  invalidated : Bool
  cache : Cache
deriving Repr, DecidableEq

/-- `DataManager.store_ohlcv_data` (lines 98-191): no-op success on an
empty frame; `pd.to_datetime(data_copy['timestamp'])` needs the timestamp
column; when validation is not skipped, line 113 unpacks the manager
wrapper's 4-tuple into three names, a `ValueError`; otherwise the rows are
processed in `batch_size` chunks, each chunk retried up to 3 times, the
call returns `True` iff at least one chunk succeeded, and in that case the
symbol's cache keys are invalidated.  `oracle i a` tells whether attempt
`a` of chunk `i` succeeds at the storage backend. -/
def DataManager_store_ohlcv_data (cfg : Config) (rules : ValidationRules)
    (hol : List Nat) (cache : Cache) (data : Frame) (symbol : String)
    (skip_validation : Bool) (oracle : Nat → Nat → Bool) : StoreOutcome :=
  if data.rows.isEmpty then ⟨.ok true, 0, 0, [], false, cache⟩
  else if "timestamp" ∉ data.cols then
    ⟨.error (.keyError "timestamp"), 0, 0, [], false, cache⟩
  else if skip_validation = false then
    match (DataManager_validate_data_quality cfg rules hol data (some symbol) false).1 with
    | .ok _ => ⟨.error .valueError, 0, 0, [], false, cache⟩
    | .error e => ⟨.error e, 0, 0, [], false, cache⟩
  else
    let batch_size := cfg.batch_size.getD 10000
    let chunkResults := (List.range (numChunks data.rows.length batch_size)).map
      fun i => chunkAttempts (oracle i)
    let successful_batches := chunkResults.countP fun r => r.1
    let failed_batches := chunkResults.countP fun r => !r.1
    let delays := (chunkResults.map fun r => r.2).flatten
    let cache2 := if 0 < successful_batches then DataManager_invalidate_cache cache symbol
                  else cache
    ⟨.ok (decide (0 < successful_batches)), successful_batches, failed_batches,
     delays, decide (0 < successful_batches), cache2⟩

/-! ### Concrete inputs used by the witnesses and counterexamples -/

/-- A well-formed bar at instant `t` (prices in band, OHLC-consistent). -/
def mkBar (t : Nat) : Bar := ⟨some t, 100, 101, 99, 100, 10⟩

/-- An empty frame that has all required columns. -/
def emptyFrame : Frame := ⟨requiredColumns, []⟩

/-- A one-row frame. -/
def frame1 : Frame := ⟨requiredColumns, [mkBar 33300]⟩

/-- Two bars one minute apart on a Saturday (epoch day 5), both inside the
trading window: no trading rows at all, so no expected interval can be
inferred. -/
def frame3 : Frame := ⟨requiredColumns, [mkBar 465300, mkBar 465360]⟩

/-- Eight Monday bars at a 1-minute cadence whose single 5-minute hole is
the final difference (09:15..09:21 then 09:26). -/
def frame5bad : Frame := ⟨requiredColumns,
  [mkBar 33300, mkBar 33360, mkBar 33420, mkBar 33480, mkBar 33540,
   mkBar 33600, mkBar 33660, mkBar 33960]⟩

/-- Eight Monday bars at a 1-minute cadence with a single 5-minute hole in
the middle (09:15..09:19 then 09:24..09:26). -/
def frame5good : Frame := ⟨requiredColumns,
  [mkBar 33300, mkBar 33360, mkBar 33420, mkBar 33480, mkBar 33540,
   mkBar 33840, mkBar 33900, mkBar 33960]⟩

/-- Two Monday bars (splits into two one-row chunks under `batch_size = 1`). -/
def frame8 : Frame := ⟨requiredColumns, [mkBar 33300, mkBar 33360]⟩

/-- A config with batch size 1. -/
def cfg8 : Config := ⟨true, some 1⟩

/-- A storage oracle where only chunk 0 ever succeeds. -/
def oracleA : Nat → Nat → Bool := fun i _ => decide (i = 0)

/-- A storage oracle where every attempt succeeds. -/
def oracleB : Nat → Nat → Bool := fun _ _ => true

/-- An empty cache. -/
def emptyCacheC : Cache := ⟨[], 0, 0⟩

/-- Distinct cache keys: `i` repetitions of the letter a. -/
def wKey (i : Nat) : String := String.mk (List.replicate i 'a')

/-- 500 cache entries with distinct keys and strictly increasing times. -/
def witnessCacheEntries : List CacheEntry :=
  (List.range 500).map fun i => ⟨wKey i, i + 1, []⟩

/-- A full cache of 500 entries. -/
def witnessCache : Cache := ⟨witnessCacheEntries, 0, 0⟩

/-- The oldest entry of `witnessCache`. -/
def witnessOldest : CacheEntry := ⟨wKey 0, 1, []⟩

/-! ### Claim theorems -/

/-- C2: on a batch with zero bars (all required columns present) validation
short-circuits to `isValid = false`, score 0 and the single issue
"Empty dataset" without running further checks and without raising — but it
returns the 3-value shape of line 103, not the declared 4-value shape, and
the `DataManager.validate_data_quality` wrapper therefore raises
`ValueError` when unpacking it, so the full result shape is NOT delivered
to the caller.  This supports the code_bug verdict for the claim. -/
theorem c2_empty_returns_truncated_tuple (rules : ValidationRules)
    (hol : List Nat) (symbol : Option String) (skip : Bool) :
    DataValidator_validate_data_quality mgrConfig rules hol emptyFrame symbol skip
      = (.truncated false ["Empty dataset"] 0, [])
    ∧ (DataManager_validate_data_quality mgrConfig rules hol emptyFrame symbol skip).1
      = .error .valueError := by
  exact ⟨rfl, rfl⟩

/-- C10: with `data_validation_enabled` false the validator returns
`(True, [], 1.0, {})` for every batch, symbol and flag, running no check
and emitting no log record. -/
theorem c10_validation_disabled (cfg : Config)
    (h : cfg.data_validation_enabled = false) (rules : ValidationRules)
    (hol : List Nat) (data : Frame) (symbol : Option String) (skip : Bool) :
    DataValidator_validate_data_quality cfg rules hol data symbol skip
      = (.full true [] 1 emptyDetails, []) := by
  simp [DataValidator_validate_data_quality, h]

/-- Witness for C10 at a disabled config and a structurally malformed
non-empty batch. -/
theorem c10_witness :
    (Config.mk false none).data_validation_enabled = false
    ∧ DataValidator_validate_data_quality (Config.mk false none)
        mgrValidationRules [] ⟨["x"], [mkBar 1]⟩ none false
      = (.full true [] 1 emptyDetails, []) :=
  ⟨rfl, c10_validation_disabled (Config.mk false none) rfl mgrValidationRules []
    ⟨["x"], [mkBar 1]⟩ none false⟩

/-- C5: the gap pipeline as implemented.  First conjunct (the failing
input): on trading-only 1-minute bars whose single 5-minute hole is the
LAST difference, the recording loop's `trading_data.iloc[gap_idx + 1]`
(a pandas label used as a position) is out of bounds, the `IndexError` is
swallowed by the catch-all, and validation returns
`(False, ["Validation failed: ..."], 0.0, {})` instead of reporting the
gap.  Remaining conjuncts (the intended behaviour, hole not at the end):
the inferred expected interval is 60 s over 8 trading bars, the tolerance
used for a 1-minute interval is 1.1, and gap detection reports exactly one
gap with `missing_intervals = 4`. -/
theorem c5_gap_detection :
    DataValidator_validate_data_quality mgrConfig mgrValidationRules []
        frame5bad (some "TEST") true
      = (.full false ["Validation failed: single positional indexer is out-of-bounds"]
          0 emptyDetails, [])
    ∧ calculate_expected_trading_intervals (sortByTs frame5good.rows.enum)
        33300 55800 [] = (some 60, 8)
    ∧ gapTolerance 60 = 11/10
    ∧ resultGapDetails (DataValidator_validate_data_quality mgrConfig
        mgrValidationRules [] frame5good (some "TEST") true).1
      = [⟨33840, 33900, 5, 4, 1⟩] := by
  refine ⟨by with_unfolding_all rfl, by with_unfolding_all rfl,
    by with_unfolding_all rfl, by with_unfolding_all rfl⟩

/-- C3 counterexample: on two Saturday bars one minute apart no expected
interval can be inferred (no trading rows), yet the gap-detection branch
still appends the neutral subscore 1.0 (line 348) — a subscore term IS
contributed.  Consequently the overall score is 10/11 (eleven terms, the
weekend check scoring 0), not the 9/10 the claim's "mean of exactly the
checks that ran" would give. -/
theorem c3_counterexample :
    calculate_expected_trading_intervals (sortByTs frame3.rows.enum) 33300 55800 []
      = (none, 0)
    ∧ gapSequenceCheck (sortByTs frame3.rows.enum) 33300 55800 [] = .ok ([], [1], [])
    ∧ resultScore (DataValidator_validate_data_quality mgrConfig mgrValidationRules []
        frame3 (some "TEST") true).1 = 10/11
    ∧ resultScore (DataValidator_validate_data_quality mgrConfig mgrValidationRules []
        frame3 (some "TEST") true).1 ≠ meanQ [1, 1, 1, 1, 1, 0, 1, 1, 1, 1] := by
  refine ⟨by with_unfolding_all rfl, by with_unfolding_all rfl,
    by with_unfolding_all rfl, by with_unfolding_all decide⟩

/-- C3 as amended: when no expected interval can be inferred the
gap-detection check contributes the NEUTRAL subscore 1.0 (not "no term"),
and the overall score is the arithmetic mean of all subscore terms the
checks actually appended (structural term first), as produced by
`validateNonEmpty`. -/
theorem c3_amended_gap_term :
    (∀ (ds : List (Nat × Bar)) (s e : Nat) (hol : List Nat),
      (calculate_expected_trading_intervals ds s e hol).1 = none →
      gapSequenceCheck ds s e hol = .ok ([], [1], []))
    ∧ (∀ (cfg : Config) (rules : ValidationRules) (hol : List Nat) (data : Frame)
        (symbol : Option String) (skip : Bool) (iss : List String) (qs : List ℚ)
        (det : TimestampDetails),
      cfg.data_validation_enabled = true → data.rows ≠ [] →
      validateNonEmpty rules hol data = .ok (iss, qs, det) →
      (DataValidator_validate_data_quality cfg rules hol data symbol skip).1
        = .full (decide (rules.quality_threshold ≤ meanQ ((structuralCheck data).2 ++ qs)))
            ((structuralCheck data).1 ++ iss)
            (meanQ ((structuralCheck data).2 ++ qs)) det) := by
  constructor
  · intro ds s e hol h
    rcases hcalc : calculate_expected_trading_intervals ds s e hol with ⟨ei, cnt⟩
    rw [hcalc] at h
    simp only at h
    subst h
    simp [gapSequenceCheck, hcalc]
  · intro cfg rules hol data symbol skip iss qs det henab hrows hok
    have hne : data.rows.isEmpty = false := by
      cases hd : data.rows with
      | nil => exact absurd hd hrows
      | cons a l => rfl
    unfold DataValidator_validate_data_quality validateBody
    simp only [henab, Bool.true_eq_false, if_false, hne, Bool.false_eq_true, hok]

/-- Witness for C3's amended theorem at the Saturday batch of the
counterexample input. -/
theorem c3_amended_witness :
    (calculate_expected_trading_intervals (sortByTs frame3.rows.enum) 33300 55800 []).1
      = none
    ∧ gapSequenceCheck (sortByTs frame3.rows.enum) 33300 55800 [] = .ok ([], [1], []) :=
  ⟨by with_unfolding_all rfl,
   c3_amended_gap_term.1 (sortByTs frame3.rows.enum) 33300 55800 []
     (by with_unfolding_all rfl)⟩

/-- C4: an instant is trading iff its weekday is Monday-Friday, its date is
not in the holiday set and its time-of-day lies inside the inclusive
trading window; a weekend instant is non-trading regardless of time-of-day;
and the manager's default window is 09:15:00-15:30:00. -/
theorem c4_trading_instant (t trading_start trading_end : Nat) (hol : List Nat) :
    (is_trading_time (some t) trading_start trading_end hol = true ↔
      (weekday t < 5 ∧ dayNum t ∉ hol ∧ trading_start ≤ timeOfDay t
        ∧ timeOfDay t ≤ trading_end))
    ∧ (5 ≤ weekday t → is_trading_time (some t) trading_start trading_end hol = false)
    ∧ tradingStartOf mgrValidationRules = 33300
    ∧ tradingEndOf mgrValidationRules = 55800 := by
  refine ⟨?_, ?_, rfl, rfl⟩
  · simp only [is_trading_time]
    split_ifs with h1 h2
    · simp only [Bool.false_eq_true, false_iff]
      intro h
      omega
    · simp only [Bool.false_eq_true, false_iff]
      intro h
      exact h.2.1 h2
    · simp only [decide_eq_true_eq]
      constructor
      · intro h
        exact ⟨by omega, h2, h⟩
      · intro h
        exact h.2.2
  · intro h5
    simp [is_trading_time, h5]

/-- Witness for C4: Saturday 09:15 (epoch day 5) is non-trading; Monday
09:15 (epoch day 0) is trading. -/
theorem c4_witness :
    is_trading_time (some 465300) 33300 55800 [] = false
    ∧ is_trading_time (some 33300) 33300 55800 [] = true :=
  ⟨(c4_trading_instant 465300 33300 55800 []).2.1 (by decide),
   (c4_trading_instant 33300 33300 55800 []).1.mpr (by decide)⟩

/-- C9: the `skip_logging` flag changes neither the validity verdict nor
the issue list nor the score nor the anomaly details — with the flag set no
log record is emitted at all — and the manager wrapper's returned 4-tuple
is likewise flag-independent. -/
theorem c9_skip_logging_pure (cfg : Config) (rules : ValidationRules)
    (hol : List Nat) (data : Frame) (symbol : Option String) :
    (DataValidator_validate_data_quality cfg rules hol data symbol true).1
      = (DataValidator_validate_data_quality cfg rules hol data symbol false).1
    ∧ (DataValidator_validate_data_quality cfg rules hol data symbol true).2 = []
    ∧ (DataManager_validate_data_quality cfg rules hol data symbol true).1
      = (DataManager_validate_data_quality cfg rules hol data symbol false).1 := by
  have h1 : ∀ skip, (DataValidator_validate_data_quality cfg rules hol data symbol skip).1
      = (DataValidator_validate_data_quality cfg rules hol data symbol true).1 := by
    intro skip
    unfold DataValidator_validate_data_quality
    split
    · rfl
    · cases hb : validateBody rules hol data with
      | ok r => rfl
      | error e => rfl
  refine ⟨(h1 true).trans (h1 false).symm, ?_, ?_⟩
  · unfold DataValidator_validate_data_quality
    split
    · rfl
    · cases hb : validateBody rules hol data with
      | ok r =>
        cases r with
        | full v i s d => simp [validatorLogs]
        | truncated v i s => rfl
      | error e => rfl
  · have hr := (h1 false).symm
    unfold DataManager_validate_data_quality
    rcases hT : DataValidator_validate_data_quality cfg rules hol data symbol true with ⟨rT, lT⟩
    rcases hF : DataValidator_validate_data_quality cfg rules hol data symbol false with ⟨rF, lF⟩
    have heq : rT = rF := by
      rw [hT, hF] at hr
      exact hr
    subst heq
    cases rT with
    | full v i s d => rfl
    | truncated v i s => rfl

/-- Looking a key up after filtering that key out finds nothing. -/
theorem lookupEntry_filter_ne (l : List CacheEntry) (key : String) :
    lookupEntry (l.filter fun x => !(x.key == key)) key = none := by
  induction l with
  | nil => rfl
  | cons e es ih =>
    cases h : (e.key == key) with
    | true => simp only [List.filter_cons, h, Bool.not_true]; exact ih
    | false => simp [List.filter_cons, h, lookupEntry, List.find?_cons, ih]

/-- C6: `_get_from_cache` returns a value iff the key is present with age
strictly below the 5-minute maximum; a fresh hit returns the stored
snapshot and bumps the hit counter leaving the entries untouched; a stale
hit deletes the entry (all other entries survive) and counts as a miss; an
absent key counts as a miss. -/
theorem c6_cache_get (c : Cache) (now : Nat) (key : String) :
    ((DataManager_get_from_cache c now key).1.isSome = true ↔
      (∃ e, lookupEntry c.entries key = some e ∧ now - e.time < 300))
    ∧ (∀ e, lookupEntry c.entries key = some e → now - e.time < 300 →
        DataManager_get_from_cache c now key
          = (some e.data, ⟨c.entries, c.hits + 1, c.misses⟩))
    ∧ (∀ e, lookupEntry c.entries key = some e → ¬ (now - e.time < 300) →
        (DataManager_get_from_cache c now key).1 = none
        ∧ (DataManager_get_from_cache c now key).2.hits = c.hits
        ∧ (DataManager_get_from_cache c now key).2.misses = c.misses + 1
        ∧ lookupEntry (DataManager_get_from_cache c now key).2.entries key = none
        ∧ (∀ x ∈ c.entries, x.key ≠ key →
            x ∈ (DataManager_get_from_cache c now key).2.entries))
    ∧ (lookupEntry c.entries key = none →
        DataManager_get_from_cache c now key = (none, ⟨c.entries, c.hits, c.misses + 1⟩)) := by
  refine ⟨?_, ?_, ?_, ?_⟩
  · unfold DataManager_get_from_cache
    cases hl : lookupEntry c.entries key with
    | none => simp
    | some e =>
      by_cases ht : now - e.time < 300
      · simp [ht]
      · simp [ht]
  · intro e hl ht
    unfold DataManager_get_from_cache
    simp only [hl]
    rw [if_pos ht]
  · intro e hl ht
    unfold DataManager_get_from_cache
    simp only [hl]
    rw [if_neg ht]
    refine ⟨rfl, rfl, rfl, lookupEntry_filter_ne _ _, ?_⟩
    intro x hx hxk
    refine List.mem_filter.mpr ⟨hx, ?_⟩
    simp [hxk]
  · intro hl
    unfold DataManager_get_from_cache
    simp only [hl]

/-- Concrete cache for the C6 witness: "a" inserted at 100 (fresh at 350),
"b" inserted at 0 (stale at 350). -/
def c6cache : Cache := ⟨[⟨"a", 100, []⟩, ⟨"b", 0, []⟩], 3, 4⟩

/-- Witness for C6: a fresh hit, a stale miss-with-delete, and an absent
miss on `c6cache` at time 350. -/
theorem c6_witness :
    DataManager_get_from_cache c6cache 350 "a"
      = (some [], ⟨c6cache.entries, 4, 4⟩)
    ∧ (DataManager_get_from_cache c6cache 350 "b").1 = none
    ∧ DataManager_get_from_cache c6cache 350 "c"
      = (none, ⟨c6cache.entries, 3, 5⟩) :=
  ⟨(c6_cache_get c6cache 350 "a").2.1 ⟨"a", 100, []⟩ (by decide) (by decide),
   ((c6_cache_get c6cache 350 "b").2.2.1 ⟨"b", 0, []⟩ (by decide) (by decide)).1,
   (c6_cache_get c6cache 350 "c").2.2.2 (by decide)⟩

/-- Inserting a fresh key appends it at the end of the dict order. -/
theorem dictInsert_fresh (l : List CacheEntry) (key : String) (t : Nat)
    (d : List Bar) (h : ∀ e ∈ l, e.key ≠ key) :
    dictInsert l key t d = l ++ [⟨key, t, d⟩] := by
  induction l with
  | nil => rfl
  | cons e es ih =>
    have he : (e.key == key) = false := by
      simpa using h e (List.mem_cons_self e es)
    simp only [dictInsert, he, Bool.false_eq_true, if_false, List.cons_append,
      List.cons.injEq, true_and]
    exact ih fun x hx => h x (List.mem_cons_of_mem e hx)

/-- A dict assignment grows the map by at most one entry. -/
theorem dictInsert_length_le (l : List CacheEntry) (key : String) (t : Nat)
    (d : List Bar) : (dictInsert l key t d).length ≤ l.length + 1 := by
  induction l with
  | nil => simp [dictInsert]
  | cons e es ih =>
    by_cases h : (e.key == key) = true
    · simp [dictInsert, h]
    · simp only [dictInsert, h, Bool.false_eq_true, if_false, List.length_cons]
      omega

/-- The running minimum kept by `oldestEntry`'s fold is the strict minimum
when one exists. -/
theorem foldl_oldest (l : List CacheEntry) (b e0 : CacheEntry)
    (hmem : b = e0 ∨ e0 ∈ l)
    (hmin : ∀ x, (x = b ∨ x ∈ l) → x ≠ e0 → e0.time < x.time) :
    l.foldl (fun best x => if x.time < best.time then x else best) b = e0 := by
  induction l generalizing b with
  | nil =>
    rcases hmem with h | h
    · exact h
    · cases h
  | cons x xs ih =>
    simp only [List.foldl_cons]
    apply ih
    · by_cases hbe : b = e0
      · by_cases hxe : x = e0
        · left
          rw [hbe, hxe]
          by_cases hx : e0.time < e0.time
          · rw [if_pos hx]
          · rw [if_neg hx]
        · have hlt := hmin x (Or.inr (List.mem_cons_self x xs)) hxe
          left
          rw [hbe]
          rw [if_neg (by omega)]
      · rcases hmem with h | h
        · exact absurd h hbe
        · rcases List.mem_cons.mp h with h | h
          · subst h
            left
            have := hmin b (Or.inl rfl) hbe
            rw [if_pos (by omega)]
          · right
            exact h
    · intro y hy hye
      rcases hy with hy | hy
      · by_cases hx : x.time < b.time
        · rw [if_pos hx] at hy
          subst hy
          exact hmin y (Or.inr (List.mem_cons_self y xs)) hye
        · rw [if_neg hx] at hy
          subst hy
          exact hmin y (Or.inl rfl) hye
      · exact hmin y (Or.inr (List.mem_cons_of_mem x hy)) hye

/-- `oldestEntry` finds the unique strictly-oldest entry. -/
theorem oldestEntry_eq (l : List CacheEntry) (e0 : CacheEntry)
    (hmem : e0 ∈ l) (hmin : ∀ x ∈ l, x ≠ e0 → e0.time < x.time) :
    oldestEntry l = some e0 := by
  cases l with
  | nil => cases hmem
  | cons a as =>
    simp only [oldestEntry, Option.some.injEq]
    apply foldl_oldest
    · rcases List.mem_cons.mp hmem with h | h
      · exact Or.inl h.symm
      · exact Or.inr h
    · intro x hx hxe
      rcases hx with hx | hx
      · exact hmin x (hx ▸ List.mem_cons_self a as) hxe
      · exact hmin x (List.mem_cons_of_mem a hx) hxe

/-- With pairwise-distinct keys, distinct entries have distinct keys. -/
theorem key_ne_of_nodup (l : List CacheEntry)
    (h : (l.map CacheEntry.key).Nodup) (e f : CacheEntry)
    (he : e ∈ l) (hf : f ∈ l) (hne : e ≠ f) : e.key ≠ f.key := by
  induction l with
  | nil => cases he
  | cons a as ih =>
    rw [List.map_cons, List.nodup_cons] at h
    rcases List.mem_cons.mp he with he1 | he1 <;>
      rcases List.mem_cons.mp hf with hf1 | hf1
    · exact absurd (he1.trans hf1.symm) hne
    · subst he1
      intro hk
      exact h.1 (hk ▸ List.mem_map_of_mem CacheEntry.key hf1)
    · subst hf1
      intro hk
      exact h.1 (hk.symm ▸ List.mem_map_of_mem CacheEntry.key he1)
    · exact ih h.2 he1 hf1

/-- Filtering out one present key with nodup keys removes exactly one
entry. -/
theorem filter_key_length (l : List CacheEntry) (e0 : CacheEntry)
    (h : (l.map CacheEntry.key).Nodup) (he : e0 ∈ l) :
    (l.filter fun x => !(x.key == e0.key)).length + 1 = l.length := by
  induction l with
  | nil => cases he
  | cons a as ih =>
    rw [List.map_cons, List.nodup_cons] at h
    by_cases ha : a = e0
    · subst ha
      have hfa : (as.filter fun x => !(x.key == a.key)) = as := by
        apply List.filter_eq_self.mpr
        intro x hx
        simp only [Bool.not_eq_eq_eq_not, Bool.not_true, beq_eq_false_iff_ne, ne_eq]
        intro hk
        exact h.1 (hk ▸ List.mem_map_of_mem CacheEntry.key hx)
      simp [List.filter_cons, hfa]
    · have he1 : e0 ∈ as := by
        rcases List.mem_cons.mp he with h1 | h1
        · exact absurd h1.symm ha
        · exact h1
      have hk : a.key ≠ e0.key := by
        intro hk
        exact h.1 (hk ▸ List.mem_map_of_mem CacheEntry.key he1)
      simp only [List.filter_cons, beq_eq_false_iff_ne, ne_eq, hk,
        not_false_eq_true, Bool.not_false, if_pos, List.length_cons]
      rw [← ih h.2 he1]
      simp [hk]

/-- Filtering out the key of a present entry strictly shrinks the list. -/
theorem filter_key_length_lt (l : List CacheEntry) (e : CacheEntry)
    (he : e ∈ l) :
    (l.filter fun x => !(x.key == e.key)).length < l.length := by
  induction l with
  | nil => cases he
  | cons a as ih =>
    by_cases ha : (a.key == e.key) = true
    · have hle := List.length_filter_le (fun x => !(x.key == e.key)) as
      simp only [List.filter_cons, ha, Bool.not_true, Bool.false_eq_true, if_false,
        List.length_cons]
      omega
    · have he1 : e ∈ as := by
        rcases List.mem_cons.mp he with h1 | h1
        · subst h1
          simp at ha
        · exact h1
      have hlt := ih he1
      have hcond : (a.key == e.key) = false := by simpa using ha
      simp only [List.filter_cons, hcond, Bool.not_false, if_true, List.length_cons]
      omega

/-- The running minimum of `oldestEntry`'s fold is among the candidates. -/
theorem foldl_min_mem (l : List CacheEntry) (b : CacheEntry) :
    l.foldl (fun best x => if x.time < best.time then x else best) b ∈ b :: l := by
  induction l generalizing b with
  | nil => exact List.mem_cons_self b []
  | cons y ys ih =>
    simp only [List.foldl_cons]
    by_cases hy : y.time < b.time
    · rw [if_pos hy]
      exact List.mem_cons_of_mem b (ih y)
    · rw [if_neg hy]
      rcases List.mem_cons.mp (ih b) with h1 | h1
      · rw [h1]
        exact List.mem_cons_self b (y :: ys)
      · exact List.mem_cons_of_mem b (List.mem_cons_of_mem y h1)

/-- `oldestEntry` returns a member of the list. -/
theorem oldestEntry_mem (l : List CacheEntry) (e : CacheEntry)
    (h : oldestEntry l = some e) : e ∈ l := by
  cases l with
  | nil => cases h
  | cons a as =>
    simp only [oldestEntry, Option.some.injEq] at h
    have hm := foldl_min_mem as a
    rw [h] at hm
    exact hm

/-- C7: `_store_in_cache` preserves the 500-entry bound, and inserting a
501st distinct key into a full cache with a unique strictly-oldest entry
evicts exactly that entry (the new entry is appended, every other entry
survives, and the surviving old entries number 499). -/
theorem c7_cache_capacity :
    (∀ (c : Cache) (now : Nat) (key : String) (d : List Bar),
      c.entries.length ≤ 500 →
      (DataManager_store_in_cache c now key d).entries.length ≤ 500)
    ∧ (∀ (c : Cache) (now : Nat) (key : String) (d : List Bar) (e0 : CacheEntry),
      c.entries.length = 500 →
      (∀ e ∈ c.entries, e.key ≠ key) →
      e0 ∈ c.entries →
      (∀ e ∈ c.entries, e.key ≠ e0.key → e0.time < e.time) →
      e0.time < now →
      (c.entries.map CacheEntry.key).Nodup →
      DataManager_store_in_cache c now key d
        = ⟨(c.entries.filter fun e => !(e.key == e0.key)) ++ [⟨key, now, d⟩],
           c.hits, c.misses⟩
      ∧ (c.entries.filter fun e => !(e.key == e0.key)).length = 499) := by
  constructor
  · intro c now key d hle
    unfold DataManager_store_in_cache
    by_cases hb : 500 < (dictInsert c.entries key now d).length
    · rw [if_pos hb]
      have hlen := dictInsert_length_le c.entries key now d
      cases ho : oldestEntry (dictInsert c.entries key now d) with
      | none =>
        cases hd : dictInsert c.entries key now d with
        | nil =>
          rw [hd] at hb
          simp at hb
        | cons a as =>
          rw [hd] at ho
          simp [oldestEntry] at ho
      | some old =>
        have hmem := oldestEntry_mem _ old ho
        have hlt := filter_key_length_lt (dictInsert c.entries key now d) old hmem
        dsimp only
        omega
    · rw [if_neg hb]
      dsimp only
      omega
  · intro c now key d e0 hlen hfresh hmem hmin hnow hnodup
    have hins : dictInsert c.entries key now d = c.entries ++ [⟨key, now, d⟩] :=
      dictInsert_fresh c.entries key now d hfresh
    have hkey0 : e0.key ≠ key := hfresh e0 hmem
    have hflen : (c.entries.filter fun e => !(e.key == e0.key)).length + 1 = 500 := by
      rw [filter_key_length c.entries e0 hnodup hmem, hlen]
    have holdest : oldestEntry (c.entries ++ [⟨key, now, d⟩]) = some e0 := by
      apply oldestEntry_eq
      · exact List.mem_append_left _ hmem
      · intro x hx hxe
        rcases List.mem_append.mp hx with h1 | h1
        · by_cases hxk : x.key = e0.key
          · have : x = e0 := by
              by_contra hne
              exact key_ne_of_nodup c.entries hnodup x e0 h1 hmem hne hxk
            exact absurd this hxe
          · exact hmin x h1 hxk
        · have : x = ⟨key, now, d⟩ := by simpa using h1
          rw [this]
          exact hnow
    constructor
    · unfold DataManager_store_in_cache
      rw [hins]
      have hlen2 : (c.entries ++ [(⟨key, now, d⟩ : CacheEntry)]).length = 501 := by
        simp [hlen]
      rw [if_pos (by omega), holdest]
      simp only [Cache.mk.injEq, and_true, true_and]
      rw [List.filter_append]
      congr 1
      simp only [List.filter_cons, List.filter_nil]
      have : ((⟨key, now, d⟩ : CacheEntry).key == e0.key) = false := by
        simp only [beq_eq_false_iff_ne, ne_eq]
        exact fun h => hkey0 h.symm
      simp [this]
    · omega

set_option maxRecDepth 20000 in
/-- Witness for C7 on a concrete full cache of 500 entries with distinct
keys and strictly increasing insertion times: inserting the fresh 501st key
evicts exactly the oldest entry. -/
theorem c7_witness :
    witnessCache.entries.length = 500
    ∧ witnessOldest ∈ witnessCache.entries
    ∧ DataManager_store_in_cache witnessCache 600 (wKey 500) []
        = ⟨(witnessCache.entries.filter fun e => !(e.key == witnessOldest.key))
            ++ [⟨wKey 500, 600, []⟩], witnessCache.hits, witnessCache.misses⟩ := by
  have hlen : witnessCache.entries.length = 500 := by
    simp [witnessCache, witnessCacheEntries]
  have hmem : witnessOldest ∈ witnessCache.entries := by
    have h0 : witnessOldest = ⟨wKey 0, 0 + 1, []⟩ := rfl
    rw [h0]
    exact List.mem_map_of_mem _ (List.mem_range.mpr (by omega))
  refine ⟨hlen, hmem, ?_⟩
  refine (c7_cache_capacity.2 witnessCache 600 (wKey 500) [] witnessOldest hlen
    ?_ hmem ?_ (by decide) ?_).1
  · intro e he hk
    simp only [witnessCache, witnessCacheEntries, List.mem_map, List.mem_range] at he
    obtain ⟨i, hi, rfl⟩ := he
    have h2 := congrArg (fun str => str.data.length) hk
    simp [wKey] at h2
    omega
  · intro e he hk
    simp only [witnessCache, witnessCacheEntries, List.mem_map, List.mem_range] at he
    obtain ⟨i, hi, rfl⟩ := he
    by_cases hi0 : i = 0
    · subst hi0
      exact absurd rfl hk
    · show witnessOldest.time < i + 1
      have ht : witnessOldest.time = 1 := rfl
      omega
  · have hinj : Function.Injective (fun i : Nat => wKey i) := by
      intro i j h
      have h2 := congrArg (fun str => str.data.length) h
      simpa [wKey] using h2
    simp only [witnessCache, witnessCacheEntries, List.map_map]
    exact List.Nodup.map hinj (List.nodup_range 500)

/-- On a non-empty frame the `try` body never produces the 3-tuple shape. -/
theorem validateBody_not_truncated (rules : ValidationRules) (hol : List Nat)
    (data : Frame) (h : data.rows ≠ []) (v : Bool) (i : List String) (s : ℚ) :
    validateBody rules hol data ≠ .ok (.truncated v i s) := by
  have hne : data.rows.isEmpty = false := by
    cases hd : data.rows with
    | nil => exact absurd hd h
    | cons a l => rfl
  unfold validateBody
  simp only [hne, Bool.false_eq_true, if_false]
  cases hv : validateNonEmpty rules hol data with
  | ok t =>
    obtain ⟨i2, s2, d2⟩ := t
    simp
  | error e => simp

/-- On a non-empty frame the validator always returns the 4-tuple shape. -/
theorem validator_fst_full (cfg : Config) (rules : ValidationRules)
    (hol : List Nat) (data : Frame) (symbol : Option String) (skip : Bool)
    (h : data.rows ≠ []) :
    ∃ v i s d, (DataValidator_validate_data_quality cfg rules hol data symbol skip).1
      = .full v i s d := by
  unfold DataValidator_validate_data_quality
  split
  · exact ⟨true, [], 1, emptyDetails, rfl⟩
  · cases hb : validateBody rules hol data with
    | ok r =>
      cases r with
      | full v i s d => exact ⟨v, i, s, d, rfl⟩
      | truncated v i s => exact absurd hb (validateBody_not_truncated rules hol data h v i s)
    | error e => exact ⟨false, ["Validation failed: " ++ pyErrMsg e], 0, emptyDetails, rfl⟩

/-- On a non-empty frame the manager wrapper returns its 4-tuple without
raising. -/
theorem dm_validate_ok (cfg : Config) (rules : ValidationRules) (hol : List Nat)
    (data : Frame) (symbol : Option String) (skip : Bool) (h : data.rows ≠ []) :
    ∃ q, (DataManager_validate_data_quality cfg rules hol data symbol skip).1 = .ok q := by
  obtain ⟨v, i, s, d, hf⟩ := validator_fst_full cfg rules hol data symbol skip h
  unfold DataManager_validate_data_quality
  rcases hV : DataValidator_validate_data_quality cfg rules hol data symbol skip with ⟨r, vlogs⟩
  rw [hV] at hf
  simp only at hf
  rw [hf]
  exact ⟨(v, i, s, d), rfl⟩

/-- C1: calling `store_ohlcv_data` on a non-empty batch with validation
enabled (skip_validation false) ALWAYS raises `ValueError` — line 113
unpacks the wrapper's 4-tuple into three names — instead of returning a
boolean outcome.  This supports the code_bug verdict for the claim. -/
theorem c1_store_validation_raises (cfg : Config) (rules : ValidationRules)
    (hol : List Nat) (cache : Cache) (data : Frame) (symbol : String)
    (oracle : Nat → Nat → Bool) (hrows : data.rows ≠ [])
    (hcol : "timestamp" ∈ data.cols) :
    (DataManager_store_ohlcv_data cfg rules hol cache data symbol false oracle).result
      = .error .valueError := by
  have hne : data.rows.isEmpty = false := by
    cases hd : data.rows with
    | nil => exact absurd hd hrows
    | cons a l => rfl
  obtain ⟨q, hq⟩ := dm_validate_ok cfg rules hol data (some symbol) false hrows
  unfold DataManager_store_ohlcv_data
  simp only [hne, Bool.false_eq_true, if_false, hcol, not_true_eq_false, decide_True,
    hq]
  rw [if_pos trivial]

/-- Witness for C1 at a concrete one-row batch: the store call raises. -/
theorem c1_witness :
    frame1.rows ≠ [] ∧ "timestamp" ∈ frame1.cols
    ∧ (DataManager_store_ohlcv_data mgrConfig mgrValidationRules [] emptyCacheC
        frame1 "RELIANCE" false oracleB).result = .error .valueError :=
  ⟨by decide, by decide,
   c1_store_validation_raises mgrConfig mgrValidationRules [] emptyCacheC frame1
     "RELIANCE" oracleB (by decide) (by decide)⟩

/-- Succeeded and failed chunks partition the chunk list. -/
theorem countP_split (l : List (Bool × List Nat)) :
    l.countP (fun r => r.1) + l.countP (fun r => !r.1) = l.length := by
  induction l with
  | nil => rfl
  | cons x xs ih =>
    cases hx : x.1 <;> simp [List.countP_cons, hx] <;> omega

/-- The storage path of `store_ohlcv_data` (validation skipped) written
out. -/
theorem store_skip_spec (cfg : Config) (rules : ValidationRules) (hol : List Nat)
    (cache : Cache) (data : Frame) (symbol : String) (oracle : Nat → Nat → Bool)
    (h1 : data.rows.isEmpty = false) (h2 : "timestamp" ∈ data.cols) :
    DataManager_store_ohlcv_data cfg rules hol cache data symbol true oracle
      = ⟨.ok (decide (0 < ((List.range (numChunks data.rows.length
            (cfg.batch_size.getD 10000))).map fun i => chunkAttempts (oracle i)).countP
              fun r => r.1)),
         ((List.range (numChunks data.rows.length (cfg.batch_size.getD 10000))).map
            fun i => chunkAttempts (oracle i)).countP (fun r => r.1),
         ((List.range (numChunks data.rows.length (cfg.batch_size.getD 10000))).map
            fun i => chunkAttempts (oracle i)).countP (fun r => !r.1),
         (((List.range (numChunks data.rows.length (cfg.batch_size.getD 10000))).map
            fun i => chunkAttempts (oracle i)).map fun r => r.2).flatten,
         decide (0 < ((List.range (numChunks data.rows.length
            (cfg.batch_size.getD 10000))).map fun i => chunkAttempts (oracle i)).countP
              fun r => r.1),
         if 0 < ((List.range (numChunks data.rows.length
            (cfg.batch_size.getD 10000))).map fun i => chunkAttempts (oracle i)).countP
              (fun r => r.1)
         then DataManager_invalidate_cache cache symbol else cache⟩ := by
  unfold DataManager_store_ohlcv_data
  simp only [h1, Bool.false_eq_true, if_false, h2, not_true_eq_false, decide_True,
    decide_False]
  rw [if_neg (by simp)]

/-- C8 as amended, for calls that reach the storage loop (validation
skipped; with validation enabled the call raises instead, see C1): chunks
are retried up to 3 total attempts with backoff sleeps of 2^attempt
seconds between attempts, an exhausted chunk is merely counted failed, the
returned outcome is the bare boolean "at least one chunk succeeded" (the
per-chunk counts are only logged, not returned), and cache invalidation
for the symbol happens exactly when at least one chunk succeeded. -/
theorem c8_store_retry_outcome (cfg : Config) (rules : ValidationRules)
    (hol : List Nat) (cache : Cache) (data : Frame) (symbol : String)
    (oracle : Nat → Nat → Bool) (hrows : data.rows ≠ [])
    (hcol : "timestamp" ∈ data.cols) :
    (DataManager_store_ohlcv_data cfg rules hol cache data symbol true oracle).result
      = .ok (decide (0 < (DataManager_store_ohlcv_data cfg rules hol cache data
          symbol true oracle).succeeded_batches))
    ∧ (DataManager_store_ohlcv_data cfg rules hol cache data symbol true
        oracle).succeeded_batches
      + (DataManager_store_ohlcv_data cfg rules hol cache data symbol true
          oracle).failed_batches
      = numChunks data.rows.length (cfg.batch_size.getD 10000)
    ∧ (DataManager_store_ohlcv_data cfg rules hol cache data symbol true
        oracle).invalidated
      = decide (0 < (DataManager_store_ohlcv_data cfg rules hol cache data symbol
          true oracle).succeeded_batches)
    ∧ (DataManager_store_ohlcv_data cfg rules hol cache data symbol true oracle).cache
      = (if 0 < (DataManager_store_ohlcv_data cfg rules hol cache data symbol true
            oracle).succeeded_batches
         then DataManager_invalidate_cache cache symbol else cache)
    ∧ (∀ chunkOracle : Nat → Bool,
        (chunkOracle 0 = true → chunkAttempts chunkOracle = (true, []))
        ∧ (chunkOracle 0 = false → chunkOracle 1 = true →
            chunkAttempts chunkOracle = (true, [1]))
        ∧ (chunkOracle 0 = false → chunkOracle 1 = false → chunkOracle 2 = true →
            chunkAttempts chunkOracle = (true, [1, 2]))
        ∧ (chunkOracle 0 = false → chunkOracle 1 = false → chunkOracle 2 = false →
            chunkAttempts chunkOracle = (false, [1, 2]))) := by
  have hne : data.rows.isEmpty = false := by
    cases hd : data.rows with
    | nil => exact absurd hd hrows
    | cons a l => rfl
  have hs := store_skip_spec cfg rules hol cache data symbol oracle hne hcol
  rw [hs]
  refine ⟨rfl, ?_, rfl, rfl, ?_⟩
  · simp only
    rw [countP_split]
    simp
  · intro chunkOracle
    refine ⟨?_, ?_, ?_, ?_⟩
    · intro h0
      simp [chunkAttempts, runChunkRetries, h0]
    · intro h0 h1
      simp [chunkAttempts, runChunkRetries, h0, h1]
    · intro h0 h1 h2
      simp [chunkAttempts, runChunkRetries, h0, h1, h2]
    · intro h0 h1 h2
      simp [chunkAttempts, runChunkRetries, h0, h1, h2]

/-- Witness for C8's amended theorem at a concrete two-chunk store where
the second chunk exhausts its retries. -/
theorem c8_witness :
    frame8.rows ≠ [] ∧ "timestamp" ∈ frame8.cols
    ∧ (DataManager_store_ohlcv_data cfg8 mgrValidationRules [] emptyCacheC frame8
        "X" true oracleA).succeeded_batches
      + (DataManager_store_ohlcv_data cfg8 mgrValidationRules [] emptyCacheC frame8
          "X" true oracleA).failed_batches
      = numChunks frame8.rows.length (cfg8.batch_size.getD 10000) :=
  ⟨by decide, by decide,
   (c8_store_retry_outcome cfg8 mgrValidationRules [] emptyCacheC frame8 "X" oracleA
     (by decide) (by decide)).2.1⟩

/-- C8 counterexample to "the outcome reports the counts of succeeded and
failed chunks": two runs with different succeeded/failed chunk counts
(1 and 1 versus 2 and 0) return the SAME outcome `True` — the boolean
returned to the caller carries no counts. -/
theorem c8_counts_not_in_outcome :
    (DataManager_store_ohlcv_data cfg8 mgrValidationRules [] emptyCacheC frame8
        "X" true oracleA).result
      = (DataManager_store_ohlcv_data cfg8 mgrValidationRules [] emptyCacheC frame8
          "X" true oracleB).result
    ∧ (DataManager_store_ohlcv_data cfg8 mgrValidationRules [] emptyCacheC frame8
        "X" true oracleA).succeeded_batches = 1
    ∧ (DataManager_store_ohlcv_data cfg8 mgrValidationRules [] emptyCacheC frame8
        "X" true oracleA).failed_batches = 1
    ∧ (DataManager_store_ohlcv_data cfg8 mgrValidationRules [] emptyCacheC frame8
        "X" true oracleB).succeeded_batches = 2
    ∧ (DataManager_store_ohlcv_data cfg8 mgrValidationRules [] emptyCacheC frame8
        "X" true oracleB).failed_batches = 0
    ∧ (DataManager_store_ohlcv_data cfg8 mgrValidationRules [] emptyCacheC frame8
        "X" true oracleA).delays = [1, 2] := by
  refine ⟨by with_unfolding_all rfl, by with_unfolding_all rfl,
    by with_unfolding_all rfl, by with_unfolding_all rfl,
    by with_unfolding_all rfl, by with_unfolding_all rfl⟩
